import Mathlib

/-!
Verification of the two numeric engines of the sm8150-common device tree:
the FOD brightness-to-dim-alpha interpolator (`fod/FingerprintInscreen.cpp`)
and the haptic effect sequencer (`vibrator/Vibrator.cpp`).

C `int` arithmetic is embedded as `Int` with truncating division
(`Int.tdiv` / `Int.tmod`, the C99 `/` and `%` semantics); `uint32_t`
fields are embedded as `Nat`.  All values arising in the reachable
computations fit comfortably inside 32 bits, so no wrap-around modelling
is needed beyond the one signed-to-unsigned conversion that the source
performs implicitly (see `intAsUInt32`).
-/

/-- A brightness/alpha pair, `struct ba`; both fields are `uint32_t`. -/
structure BA where
  brightness : Nat
  alpha : Nat
deriving DecidableEq

/-- The constant source table `brightness_alpha_lut_1` (21 entries). -/
def brightness_alpha_lut_1 : List BA :=
  [⟨0, 0xff⟩, ⟨1, 0xf1⟩, ⟨2, 0xf0⟩, ⟨3, 0xee⟩, ⟨4, 0xec⟩, ⟨6, 0xeb⟩,
   ⟨10, 0xe7⟩, ⟨20, 0xdf⟩, ⟨30, 0xd8⟩, ⟨45, 0xd0⟩, ⟨70, 0xc5⟩, ⟨100, 0xb9⟩,
   ⟨150, 0xaf⟩, ⟨227, 0x99⟩, ⟨300, 0x88⟩, ⟨400, 0x76⟩, ⟨500, 0x66⟩,
   ⟨600, 0x59⟩, ⟨800, 0x42⟩, ⟨1023, 0x2a⟩, ⟨2000, 0x83⟩]

/-- The working table `brightness_alpha_lut[21]`.  It is zero-initialised
and then filled entry by entry from `brightness_alpha_lut_1` in the
`FingerprintInscreen` constructor, so after construction it equals the
source table; we model the constructed table. -/
def brightness_alpha_lut : List BA := brightness_alpha_lut_1

/-- The implicit usual-arithmetic conversion the source performs in
`brightness_alpha_lut[i].brightness >= brightness`: the `int` operand is
converted to `uint32_t` because the other operand is unsigned. -/
def intAsUInt32 (x : Int) : Nat := (x % (2 ^ 32 : Int)).toNat

/-- The scan loop of `brightness_to_alpha`: the index of the first entry
whose brightness is `>=` the (converted) input, or the length of the
list when no entry qualifies. -/
def scanFrom (u : Nat) : List BA → Nat
  | [] => 0
  | e :: rest => if u ≤ e.brightness then 0 else scanFrom u rest + 1

/-- The value of loop variable `i` after the scan in `brightness_to_alpha`. -/
def scanIndex (x : Int) : Nat := scanFrom (intAsUInt32 x) brightness_alpha_lut

/-- `static int interpolate(int x, int xa, int xb, int ya, int yb)`.
The guard `(xa - xb) && (yb - ya)` is the C truthiness test, i.e. both
differences nonzero. -/
def interpolate (x xa xb ya yb : Int) : Int :=
  let bf : Int := Int.tdiv (2 * (yb - ya) * (x - xa)) (xb - xa)
  let factor : Int := Int.tdiv bf 2
  let plus : Int := Int.tmod bf 2
  let sub : Int :=
    if xa - xb ≠ 0 ∧ yb - ya ≠ 0 then
      Int.tdiv (Int.tdiv (2 * (x - xa) * (x - xb)) (yb - ya)) (xa - xb)
    else 0
  ya + factor + plus + sub

/-- `int brightness_to_alpha(int brightness)`.  `level` is
`ARRAY_SIZE(brightness_alpha_lut)`; out-of-range table reads cannot occur
(proved below), so the embedding uses `List.getD` with an arbitrary
default. -/
def brightness_to_alpha (brightness : Int) : Int :=
  let level : Nat := brightness_alpha_lut.length
  let i : Nat := scanIndex brightness
  if i = 0 then ((brightness_alpha_lut.getD 0 ⟨0, 0⟩).alpha : Int)
  else if i = level then ((brightness_alpha_lut.getD (level - 1) ⟨0, 0⟩).alpha : Int)
  else
    interpolate brightness
      ((brightness_alpha_lut.getD (i - 1) ⟨0, 0⟩).brightness : Int)
      ((brightness_alpha_lut.getD i ⟨0, 0⟩).brightness : Int)
      ((brightness_alpha_lut.getD (i - 1) ⟨0, 0⟩).alpha : Int)
      ((brightness_alpha_lut.getD i ⟨0, 0⟩).alpha : Int)

/-- Division that reports a zero divisor instead of defaulting. -/
def checkedDiv (a b : Int) : Option Int :=
  if b = 0 then none else some (Int.tdiv a b)

/-- `interpolate` with every division checked for a zero divisor. -/
def interpolate_checked (x xa xb ya yb : Int) : Option Int := do
  let bf ← checkedDiv (2 * (yb - ya) * (x - xa)) (xb - xa)
  let factor ← checkedDiv bf 2
  let plus := Int.tmod bf 2
  let sub ← if xa - xb ≠ 0 ∧ yb - ya ≠ 0 then do
      let q ← checkedDiv (2 * (x - xa) * (x - xb)) (yb - ya)
      checkedDiv q (xa - xb)
    else pure (0 : Int)
  pure (ya + factor + plus + sub)

/-- `brightness_to_alpha` with every table access bounds-checked and every
division zero-checked; `none` would signal an out-of-bounds read or a
division by zero. -/
def brightness_to_alpha_checked (brightness : Int) : Option Int :=
  let level : Nat := brightness_alpha_lut.length
  let i : Nat := scanIndex brightness
  if i = 0 then
    if 0 < level then some ((brightness_alpha_lut.getD 0 ⟨0, 0⟩).alpha : Int) else none
  else if i = level then
    if level - 1 < level then
      some ((brightness_alpha_lut.getD (level - 1) ⟨0, 0⟩).alpha : Int)
    else none
  else
    if i - 1 < level ∧ i < level then
      interpolate_checked brightness
        ((brightness_alpha_lut.getD (i - 1) ⟨0, 0⟩).brightness : Int)
        ((brightness_alpha_lut.getD i ⟨0, 0⟩).brightness : Int)
        ((brightness_alpha_lut.getD (i - 1) ⟨0, 0⟩).alpha : Int)
        ((brightness_alpha_lut.getD i ⟨0, 0⟩).alpha : Int)
    else none

/-- The claim's ascending scan, stated over the signed input: first index
whose table brightness is `>=` the input. -/
def scanFromSigned (x : Int) : List BA → Nat
  | [] => 0
  | e :: rest => if x ≤ (e.brightness : Int) then 0 else scanFromSigned x rest + 1

/-- Index of the first table entry with brightness `>=` the signed input. -/
def scanIndexSigned (x : Int) : Nat := scanFromSigned x brightness_alpha_lut

/-- Modelled from the claim's words, for comparison with the source: with
`dy = alpha[i] - alpha[i-1]`, `dx = brightness[i] - brightness[i-1]`,
`t = x - brightness[i-1]`, `bf = 2*dy*t/dx`, `factor = bf/2`,
`plus = bf mod 2`, and, when `dx` and `dy` are nonzero,
`sub = 2*t*(x - brightness[i]) / dy / dx` (two sequential truncating
divisions), the result is `alpha[i-1] + factor + plus + sub`. -/
def interpolate_claimed (x : Int) (i : Nat) : Int :=
  let lo := brightness_alpha_lut.getD (i - 1) ⟨0, 0⟩
  let hi := brightness_alpha_lut.getD i ⟨0, 0⟩
  let dy : Int := (hi.alpha : Int) - (lo.alpha : Int)
  let dx : Int := (hi.brightness : Int) - (lo.brightness : Int)
  let t : Int := x - (lo.brightness : Int)
  let bf : Int := Int.tdiv (2 * dy * t) dx
  let factor : Int := Int.tdiv bf 2
  let plus : Int := Int.tmod bf 2
  let sub : Int :=
    if dx ≠ 0 ∧ dy ≠ 0 then Int.tdiv (Int.tdiv (2 * t * (x - (hi.brightness : Int))) dy) dx
    else 0
  (lo.alpha : Int) + factor + plus + sub

/-- The claim's decomposition amended at the one point the code forces:
the second division of the correction term is by
`brightness[i-1] - brightness[i]` (the negated gap), not by `dx`. -/
def interpolate_amended (x : Int) (i : Nat) : Int :=
  let lo := brightness_alpha_lut.getD (i - 1) ⟨0, 0⟩
  let hi := brightness_alpha_lut.getD i ⟨0, 0⟩
  let dy : Int := (hi.alpha : Int) - (lo.alpha : Int)
  let dx : Int := (hi.brightness : Int) - (lo.brightness : Int)
  let t : Int := x - (lo.brightness : Int)
  let bf : Int := Int.tdiv (2 * dy * t) dx
  let factor : Int := Int.tdiv bf 2
  let plus : Int := Int.tmod bf 2
  let sub : Int :=
    if dx ≠ 0 ∧ dy ≠ 0 then
      Int.tdiv (Int.tdiv (2 * t * (x - (hi.brightness : Int))) dy)
        ((lo.brightness : Int) - (hi.brightness : Int))
    else 0
  (lo.alpha : Int) + factor + plus + sub

/-- `FingerprintInscreen::getDimAmount(int32_t)`, from the branch of the
conflicted region introduced by commit 1b15a52 ("fod: Calculate dim
alpha based on real brightness"), which is the behaviour the rest of the
interpolation machinery exists for.  The two sysfs reads are passed in
as `Option Int` (`none` models a failed read; `get(path, def)` then
returns the default `0`).  The `int32_t` parameter is unnamed and unused
in the source. -/
def getDimAmount (_arg : Int) (brightnessRead hbmRead : Option Int) : Int :=
  let brightness := brightnessRead.getD 0
  let dimAmount := brightness_to_alpha brightness
  let hbmMode := hbmRead.getD 0
  if hbmMode = 5 then 42 else dimAmount

/-- The distinct sysfs control endpoints of the vibrator driver.  Note
`SCALE_PATH` and `GAIN_PATH` are the same file
(`/sys/class/leds/vibrator/gain`), so both are the `gain` endpoint. -/
inductive Endpoint
  | activate
  | brightness
  | ctrlLoop
  | duration
  | gain
  | ignoreStore
  | lpTrigger
  | lraWaveShape
  | mode
  | rtpInput
  | seq
  | vmax
deriving DecidableEq

/-- A value written to an endpoint: an integer or a literal string. -/
inductive WVal
  | i (n : Int)
  | s (str : String)
deriving DecidableEq

/-- One hardware write, `set(path, value)`. -/
abbrev HWrite := Endpoint × WVal

/-- The status codes the vibrator reports. -/
inductive Status
  | ok
  | badValue
  | unsupportedOperation
deriving DecidableEq

def MAX_RTP_INPUT : Int := 127

def MIN_RTP_INPUT : Int := 0

def GAIN : Int := 128

def LOOP_MODE_OPEN : Int := 1

def VMAX : Int := 9

def SQUARE_WAVE : Int := 0

def SINE_WAVE : Int := 1

def WAVEFORM_MODE : String := "waveform"

def RTP_MODE : String := "rtp"

def WAVEFORM_CLICK_EFFECT_SEQ : List String := ["0 1", "1 0"]

def WAVEFORM_CLICK_EFFECT_CTRL_LOOPS : List String := ["0 0x0"]

def WAVEFORM_CLICK_EFFECT_MS : Nat := 0

def WAVEFORM_TICK_EFFECT_SEQ : List String := ["0 1", "1 0"]

def WAVEFORM_TICK_EFFECT_CTRL_LOOPS : List String := ["1 0x0"]

def WAVEFORM_TICK_EFFECT_MS : Nat := 0

def WAVEFORM_DOUBLE_CLICK_EFFECT_SEQ : List String := ["0 1"]

def WAVEFORM_DOUBLE_CLICK_EFFECT_CTRL_LOOPS : List String := ["0 0x0", "1 0x0"]

def WAVEFORM_DOUBLE_CLICK_EFFECT_MS : Nat := 10

def WAVEFORM_HEAVY_CLICK_EFFECT_SEQ : List String := ["0 0", "1 0"]

def WAVEFORM_HEAVY_CLICK_EFFECT_CTRL_LOOPS : List String := ["1 0x1"]

def WAVEFORM_HEAVY_CLICK_EFFECT_MS : Nat := 10

def WAVEFORM_POP_EFFECT_MS : Nat := 5

def WAVEFORM_THUD_EFFECT_MS : Nat := 10

/-- The `V1_2::Effect` identifiers the switch recognises; `other` stands
for every remaining identifier (the ringtone effects and out-of-range
casts), all of which fall to the `default` arm. -/
inductive Effect
  | click
  | doubleClick
  | tick
  | heavyClick
  | pop
  | thud
  | other (id : Int)
deriving DecidableEq

/-- `EffectStrength`; `other` stands for out-of-range casts reaching the
`default` arm of `convertEffectStrength`. -/
inductive EffectStrength
  | light
  | medium
  | strong
  | other (id : Int)
deriving DecidableEq

namespace Vibrator

/-- `Vibrator::on(uint32_t timeoutMs, bool isWaveform)` (named `onWith`
because `on` is reserved in Lean): returns the status, the (unchanged)
`mShouldSetBrightness` flag, and the ordered hardware writes. -/
def onWith (timeoutMs : Nat) (isWaveform : Bool) (mShouldSetBrightness : Bool) :
    Status × Bool × List HWrite :=
  (Status.ok, mShouldSetBrightness,
    [(Endpoint.ctrlLoop, WVal.i LOOP_MODE_OPEN), (Endpoint.duration, WVal.i (timeoutMs : Int))]
    ++ (if isWaveform then
          [(Endpoint.mode, WVal.s WAVEFORM_MODE), (Endpoint.lraWaveShape, WVal.i SINE_WAVE)]
        else
          [(Endpoint.mode, WVal.s RTP_MODE), (Endpoint.lraWaveShape, WVal.i SQUARE_WAVE)])
    ++ (if mShouldSetBrightness then [(Endpoint.brightness, WVal.i 1)]
        else [(Endpoint.brightness, WVal.i 0), (Endpoint.activate, WVal.i 1)]))

/-- `Vibrator::on(uint32_t timeoutMs)`: clears `mShouldSetBrightness`
and then calls the two-argument `on` with `isWaveform = false`. -/
def onSimple (timeoutMs : Nat) (_mShouldSetBrightness : Bool) :
    Status × Bool × List HWrite :=
  onWith timeoutMs false false

/-- `Vibrator::off()`: writes brightness `0` then activate `0`; touches
no other state. -/
def off (mShouldSetBrightness : Bool) : Status × Bool × List HWrite :=
  (Status.ok, mShouldSetBrightness,
    [(Endpoint.brightness, WVal.i 0), (Endpoint.activate, WVal.i 0)])

/-- Rounding of `n / d` (with `n ≥ 0 < d`) to the nearest integer, halves
away from zero.  `Vibrator::setAmplitude` computes its value with
`std::round` on `double` arithmetic; over the whole `uint8_t` input range
the double computation yields exactly this rational rounding (the
quantity is `(amplitude-1)/2`, whose halves survive the two double
roundings unchanged; checked exhaustively over all 256 inputs). -/
def roundHalfAway (n d : Int) : Int := Int.tdiv (2 * n + d) (2 * d)

/-- `Vibrator::setAmplitude(uint8_t amplitude)`: returns the status and
the hardware writes (the source touches no other state here).  The
rounded quantity is `(amplitude-1)/254 * (MAX_RTP_INPUT - MIN_RTP_INPUT)
+ MIN_RTP_INPUT`, over the common denominator `254`. -/
def setAmplitude (amplitude : Nat) : Status × List HWrite :=
  if amplitude = 0 then (Status.badValue, [])
  else
    (Status.ok,
      [(Endpoint.rtpInput,
        WVal.i (roundHalfAway
          (((amplitude : Int) - 1) * (MAX_RTP_INPUT - MIN_RTP_INPUT) + MIN_RTP_INPUT * 254)
          254))])

/-- `convertEffectStrength` from `Vibrator::performEffect`. -/
def convertEffectStrength (strength : EffectStrength) : Int :=
  match strength with
  | .light => 54
  | .medium => 107
  | .strong => 107
  | .other _ => 0

/-- Static data of one arm of the `performEffect` switch: the optional
sequence and control-loop register strings, the optional duration
override, and the nominal duration `timeMS`. -/
structure EffectDescriptor where
  sequences : Option (List String)
  ctrlLoops : Option (List String)
  durationOverride : Option Int
  timeMS : Nat
deriving DecidableEq

/-- The switch of `performEffect`: descriptor per recognised effect,
`none` for the `default` arm. -/
def effectDescriptor : Effect → Option EffectDescriptor
  | .click => some ⟨some WAVEFORM_CLICK_EFFECT_SEQ, some WAVEFORM_CLICK_EFFECT_CTRL_LOOPS,
      none, WAVEFORM_CLICK_EFFECT_MS⟩
  | .doubleClick => some ⟨some WAVEFORM_DOUBLE_CLICK_EFFECT_SEQ,
      some WAVEFORM_DOUBLE_CLICK_EFFECT_CTRL_LOOPS, none, WAVEFORM_DOUBLE_CLICK_EFFECT_MS⟩
  | .tick => some ⟨some WAVEFORM_TICK_EFFECT_SEQ, some WAVEFORM_TICK_EFFECT_CTRL_LOOPS,
      none, WAVEFORM_TICK_EFFECT_MS⟩
  | .heavyClick => some ⟨some WAVEFORM_HEAVY_CLICK_EFFECT_SEQ,
      some WAVEFORM_HEAVY_CLICK_EFFECT_CTRL_LOOPS, none, WAVEFORM_HEAVY_CLICK_EFFECT_MS⟩
  | .pop => some ⟨none, none, some 0, WAVEFORM_POP_EFFECT_MS⟩
  | .thud => some ⟨none, none, some 0, WAVEFORM_THUD_EFFECT_MS⟩
  | .other _ => none

/-- The `setEffect` lambda of `performEffect`: the ordered writes issued
for a descriptor (deactivate, clear ignore-store, optional duration,
optional vmax, optional gain, sequence entries, control-loop entries). -/
def setEffect (sequences ctrlLoops : Option (List String)) (durationOverride : Option Int)
    (vmax gain : Option Int) : List HWrite :=
  [(Endpoint.activate, WVal.i 0), (Endpoint.ignoreStore, WVal.i 0)]
  ++ (match durationOverride with
      | some dur => [(Endpoint.duration, WVal.i dur)]
      | none => [])
  ++ (match vmax with
      | some v => [(Endpoint.vmax, WVal.i v)]
      | none => [])
  ++ (match gain with
      | some g => [(Endpoint.gain, WVal.i g)]
      | none => [])
  ++ (match sequences with
      | some l => l.map (fun sq => (Endpoint.seq, WVal.s sq))
      | none => [])
  ++ (match ctrlLoops with
      | some l => l.map (fun cl => (Endpoint.ctrlLoop, WVal.s cl))
      | none => [])

/-- `Vibrator::performEffect(effect, strength, cb)`: returns the status
and duration passed to the callback, the resulting
`mShouldSetBrightness` flag, and the ordered hardware writes.  On a
recognised effect the flag is set to `true` before `on(timeMS, true)`
runs, so `on` takes its brightness-channel branch. -/
def performEffect (effect : Effect) (strength : EffectStrength) (_mShouldSetBrightness : Bool) :
    Status × Nat × Bool × List HWrite :=
  match effectDescriptor effect with
  | none => (Status.unsupportedOperation, 0, false, [])
  | some d =>
      let descWrites := setEffect d.sequences d.ctrlLoops d.durationOverride (some VMAX) (some GAIN)
      let scaleWrite : HWrite := (Endpoint.gain, WVal.i (convertEffectStrength strength))
      (Status.ok, d.timeMS, true, descWrites ++ [scaleWrite] ++ (onWith d.timeMS true true).2.2)

end Vibrator

theorem scanFrom_le_length (u : Nat) (l : List BA) : scanFrom u l ≤ l.length := by
  induction l with
  | nil => simp [scanFrom]
  | cons e rest ih =>
    rw [scanFrom]
    split
    · simp
    · simpa using ih

theorem scanFrom_eq_length (u : Nat) (l : List BA) (h : ∀ e ∈ l, e.brightness < u) :
    scanFrom u l = l.length := by
  induction l with
  | nil => rfl
  | cons e rest ih =>
    rw [scanFrom]
    have he : e.brightness < u := h e (List.mem_cons_self e rest)
    rw [if_neg (by omega)]
    have := ih (fun e' he' => h e' (List.mem_cons_of_mem _ he'))
    simp [this]

theorem lut_brightness_le : ∀ e ∈ brightness_alpha_lut, e.brightness ≤ 2000 := by decide

theorem scanIndex_of_big (x : Int) (h : 2000 < intAsUInt32 x) : scanIndex x = 21 := by
  have h1 : ∀ e ∈ brightness_alpha_lut, e.brightness < intAsUInt32 x := by
    intro e he
    have := lut_brightness_le e he
    omega
  have := scanFrom_eq_length (intAsUInt32 x) brightness_alpha_lut h1
  simpa [scanIndex] using this

theorem scanFrom_signed_eq (x : Int) (hx : 0 ≤ x) (l : List BA) :
    scanFrom x.toNat l = scanFromSigned x l := by
  induction l with
  | nil => rfl
  | cons e rest ih =>
    rw [scanFrom, scanFromSigned]
    by_cases h : x ≤ (e.brightness : Int)
    · rw [if_pos (by omega), if_pos h]
    · rw [if_neg (by omega), if_neg h, ih]

theorem intAsUInt32_of_nonneg (x : Int) (h0 : 0 ≤ x) (h1 : x < 2 ^ 31) :
    intAsUInt32 x = x.toNat := by
  unfold intAsUInt32
  have h32 : (2 : Int) ^ 32 = 4294967296 := by norm_num
  rw [h32]
  have : x % (4294967296 : Int) = x := by omega
  rw [this]

theorem intAsUInt32_of_neg (x : Int) (h0 : -(2 ^ 31) ≤ x) (h1 : x < 0) :
    2000 < intAsUInt32 x := by
  unfold intAsUInt32
  have h32 : (2 : Int) ^ 32 = 4294967296 := by norm_num
  rw [h32]
  have : x % (4294967296 : Int) = x + 4294967296 := by omega
  rw [this]
  omega

theorem brightness_to_alpha_eq_last (x : Int) (hs : scanIndex x = 21) :
    brightness_to_alpha x = 131 := by
  have hlen : brightness_alpha_lut.length = 21 := rfl
  simp only [brightness_to_alpha, hs, hlen]
  norm_num
  decide

/-- Claim C2 counterexample: the scan compares the input after conversion
to `uint32_t`, so `brightness_to_alpha (-5)` scans past every entry and
returns the last entry's alpha `0x83 = 131`, not the first entry's
`0xff = 255`. -/
theorem floor_clamp_counterexample :
    brightness_to_alpha (-5) = 131 ∧ ¬ brightness_to_alpha (-5) = 255 := by decide

/-- Claim C2, amended: for every representable `int` strictly below the
first table entry's brightness (that is, every negative input) the
signed-to-unsigned conversion makes the scan exhaust the table, so
`brightness_to_alpha` returns the last entry's alpha `0x83`; the input
`0` equals the first entry's brightness, so `brightness_to_alpha 0`
is the first entry's alpha `0xff`. -/
theorem floor_clamp_amended (x : Int) (h0 : -(2 ^ 31) ≤ x) (h1 : x < 0) :
    brightness_to_alpha x = 131 ∧ brightness_to_alpha 0 = 255 := by
  refine ⟨?_, by decide⟩
  exact brightness_to_alpha_eq_last x (scanIndex_of_big x (intAsUInt32_of_neg x h0 h1))

/-- Witness for the amended claim C2 at the concrete input `-5`. -/
theorem floor_clamp_amended_witness :
    brightness_to_alpha (-5) = 131 ∧ brightness_to_alpha 0 = 255 :=
  floor_clamp_amended (-5) (by decide) (by decide)

/-- Claim C3: for every representable `int` at or above the last table
entry's brightness `2000`, `brightness_to_alpha` returns the last
entry's alpha `0x83 = 131` (at exactly `2000` via an interpolation whose
correction terms vanish, above it via the ceiling clamp). -/
theorem ceiling_clamp (x : Int) (h1 : 2000 ≤ x) (h2 : x < 2 ^ 31) :
    brightness_to_alpha x = 131 := by
  by_cases hx : x = 2000
  · subst hx; decide
  · have h31 : (2 : Int) ^ 31 = 2147483648 := by norm_num
    have h0 : 0 ≤ x := by omega
    have hu : intAsUInt32 x = x.toNat := intAsUInt32_of_nonneg x h0 h2
    have hbig : 2000 < intAsUInt32 x := by rw [hu]; omega
    exact brightness_to_alpha_eq_last x (scanIndex_of_big x hbig)

/-- Witness for claim C3 at the concrete inputs `2000` and `5000`. -/
theorem ceiling_clamp_witness :
    brightness_to_alpha 2000 = 131 ∧ brightness_to_alpha 5000 = 131 :=
  ⟨ceiling_clamp 2000 (by decide) (by decide), ceiling_clamp 5000 (by decide) (by decide)⟩

theorem interpolate_checked_eq (x xa xb ya yb : Int) (h : xb - xa ≠ 0) :
    interpolate_checked x xa xb ya yb = some (interpolate x xa xb ya yb) := by
  unfold interpolate_checked interpolate checkedDiv
  by_cases hyy : yb - ya = 0
  · have hg : ¬ (xa - xb ≠ 0 ∧ yb - ya ≠ 0) := by
      intro hc
      exact hc.2 hyy
    simp [h, hg]
  · have hxx : xa - xb ≠ 0 := by omega
    have hg : xa - xb ≠ 0 ∧ yb - ya ≠ 0 := ⟨hxx, hyy⟩
    simp [h, hg, hxx, hyy]

theorem lut_adjacent_strict : ∀ j, j < 20 →
    (brightness_alpha_lut.getD j ⟨0, 0⟩).brightness
      < (brightness_alpha_lut.getD (j + 1) ⟨0, 0⟩).brightness := by decide

/-- Claim C9: for every integer input the brightness-to-alpha computation
is total and never faults: every table access that the fully
bounds-checked and division-checked variant performs is in range and
every divisor it meets is nonzero, so it always returns a value, and
that value is the one the total embedding computes. -/
theorem brightness_to_alpha_safe (x : Int) :
    brightness_to_alpha_checked x = some (brightness_to_alpha x) := by
  have hlen : brightness_alpha_lut.length = 21 := rfl
  have hle : scanIndex x ≤ 21 := by
    have := scanFrom_le_length (intAsUInt32 x) brightness_alpha_lut
    simpa [scanIndex, hlen] using this
  by_cases h0 : scanIndex x = 0
  · simp [brightness_to_alpha_checked, brightness_to_alpha, h0, hlen]
  · by_cases h21 : scanIndex x = 21
    · simp [brightness_to_alpha_checked, brightness_to_alpha, h21, hlen]
    · have hi2 : scanIndex x < 21 := by omega
      have him : scanIndex x - 1 < 21 := by omega
      have hj := lut_adjacent_strict (scanIndex x - 1) (by omega)
      have hj' : scanIndex x - 1 + 1 = scanIndex x := by omega
      rw [hj'] at hj
      have hne : ((brightness_alpha_lut.getD (scanIndex x) ⟨0, 0⟩).brightness : Int)
          - ((brightness_alpha_lut.getD (scanIndex x - 1) ⟨0, 0⟩).brightness : Int) ≠ 0 := by
        omega
      simp only [brightness_to_alpha_checked, brightness_to_alpha, hlen, h0, h21, hi2, him,
        if_neg h0, if_neg h21, if_pos (And.intro him hi2), and_self, if_true]
      exact interpolate_checked_eq _ _ _ _ _ hne

theorem interpolate_guard_flip (x xa xb ya yb : Int) :
    interpolate x xa xb ya yb =
      (let dy : Int := yb - ya
       let dx : Int := xb - xa
       let t : Int := x - xa
       let bf : Int := Int.tdiv (2 * dy * t) dx
       let factor : Int := Int.tdiv bf 2
       let plus : Int := Int.tmod bf 2
       let sub : Int :=
         if dx ≠ 0 ∧ dy ≠ 0 then
           Int.tdiv (Int.tdiv (2 * t * (x - xb)) dy) (xa - xb)
         else 0
       ya + factor + plus + sub) := by
  unfold interpolate
  have hiff : (xa - xb ≠ 0 ∧ yb - ya ≠ 0) ↔ (xb - xa ≠ 0 ∧ yb - ya ≠ 0) := by
    constructor
    · rintro ⟨u, v⟩
      exact ⟨by omega, v⟩
    · rintro ⟨u, v⟩
      exact ⟨by omega, v⟩
  rw [if_congr hiff rfl rfl]

theorem scanIndex_eq_signed (x : Int) (h0 : 0 ≤ x) (h1 : x < 2 ^ 31) :
    scanIndex x = scanIndexSigned x := by
  unfold scanIndex scanIndexSigned
  rw [intAsUInt32_of_nonneg x h0 h1, scanFrom_signed_eq x h0]

/-- Claim C1 counterexample: at input `900` the scan stops at index `19`
(between the entries `{800, 0x42}` and `{1023, 0x2a}`), the code returns
`51`, but the claim's decomposition, whose correction term divides by
`dx` rather than by `brightness[i-1] - brightness[i]`, yields `59`. -/
theorem interpolation_claim_counterexample :
    scanIndexSigned 900 = 19 ∧ brightness_to_alpha 900 = 51 ∧
      interpolate_claimed 900 19 = 59 ∧ ¬ brightness_to_alpha 900 = interpolate_claimed 900 19 := by
  decide

/-- Claim C1, amended: whenever the ascending scan finds a first index
`i` with table brightness `>=` the input and `0 < i < 21`,
`brightness_to_alpha` returns `alpha[i-1] + factor + plus + sub` with
`bf`, `factor` and `plus` as claimed, but with the correction term
`sub = 2*t*(x - brightness[i]) / dy / (brightness[i-1] - brightness[i])`
(two sequential truncating divisions, the second by the negated gap). -/
theorem interpolation_amended (x : Int) (h0 : 0 ≤ x) (h1 : x < 2 ^ 31)
    (hlo : 0 < scanIndexSigned x) (hhi : scanIndexSigned x < 21) :
    brightness_to_alpha x = interpolate_amended x (scanIndexSigned x) := by
  have hscan : scanIndex x = scanIndexSigned x := scanIndex_eq_signed x h0 h1
  have hlen : brightness_alpha_lut.length = 21 := rfl
  have hz : ¬ scanIndexSigned x = 0 := by omega
  have h21 : ¬ scanIndexSigned x = 21 := by omega
  simp only [brightness_to_alpha, hscan, hlen, if_neg hz, if_neg h21]
  rw [interpolate_guard_flip]
  rfl

/-- Witness for the amended claim C1 at the concrete input `900`. -/
theorem interpolation_amended_witness :
    brightness_to_alpha 900 = interpolate_amended 900 (scanIndexSigned 900) ∧
      brightness_to_alpha 900 = 51 :=
  ⟨interpolation_amended 900 (by decide) (by decide) (by decide) (by decide), by decide⟩

/-- Claim C7: `getDimAmount` computes `brightness_to_alpha` of the panel
brightness read (default `0` on read failure), and returns the fixed
constant `42` whenever the high-brightness-mode endpoint reads the
sentinel `5`, regardless of the brightness value. -/
theorem getDimAmount_hbm_override (arg : Int) (brightnessRead hbmRead : Option Int)
    (h : hbmRead.getD 0 = 5) :
    getDimAmount arg brightnessRead hbmRead = 42 ∧
      ∀ hbmRead2 : Option Int, hbmRead2.getD 0 ≠ 5 →
        getDimAmount arg brightnessRead hbmRead2 = brightness_to_alpha (brightnessRead.getD 0) := by
  constructor
  · simp [getDimAmount, h]
  · intro hbmRead2 h2
    simp [getDimAmount, h2]

/-- Witness for claim C7 at concrete reads. -/
theorem getDimAmount_hbm_override_witness :
    getDimAmount 7 (some 1000) (some 5) = 42 ∧
      getDimAmount 7 (some 1000) none = brightness_to_alpha 1000 :=
  ⟨(getDimAmount_hbm_override 7 (some 1000) (some 5) (by decide)).1,
   (getDimAmount_hbm_override 7 (some 1000) (some 5) (by decide)).2 none (by decide)⟩

/-- Claim C10: the result of `getDimAmount` does not depend on its
`int32_t` argument — with identical endpoint reads, any two argument
values produce equal results. -/
theorem getDimAmount_ignores_argument (a1 a2 : Int) (brightnessRead hbmRead : Option Int) :
    getDimAmount a1 brightnessRead hbmRead = getDimAmount a2 brightnessRead hbmRead := rfl

/-- Claim C8: `off` always returns success and writes brightness `0` then
activate `0`, regardless of the session flag left by any preceding `on`;
it changes no state, so a second call produces identical writes. -/
theorem off_spec (st : Bool) (t : Nat) (wf : Bool) :
    Vibrator.off st =
      (Status.ok, st, [(Endpoint.brightness, WVal.i 0), (Endpoint.activate, WVal.i 0)]) ∧
    Vibrator.off ((Vibrator.off st).2.1) = Vibrator.off st ∧
    (Vibrator.onWith t wf st).2.1 = st ∧
    (Vibrator.off ((Vibrator.onWith t wf st).2.1)).2.2 = (Vibrator.off st).2.2 :=
  ⟨rfl, rfl, rfl, rfl⟩

/-- Claim C5: an unrecognised effect identifier yields the
unsupported-operation status with duration `0`, clears the
brightness-channel session flag, and performs zero hardware writes. -/
theorem performEffect_unrecognized (id : Int) (strength : EffectStrength) (st : Bool) :
    Vibrator.performEffect (.other id) strength st =
      (Status.unsupportedOperation, 0, false, []) := rfl

/-- Claim C4: each recognised effect issues exactly the descriptor's
writes in order (deactivate, clear ignore-store, duration override when
present, vmax, gain, sequence entries, control-loop entries), then the
strength-derived gain byte on the scale endpoint (which aliases the gain
endpoint), sets the brightness-channel session flag, performs the
actuation-start writes for the nominal duration in waveform mode, and
reports success with the nominal duration; the strength mapping is
LIGHT to 54, MEDIUM and STRONG to 107, anything else to 0. -/
theorem performEffect_recognized (strength : EffectStrength) (st : Bool) :
    Vibrator.performEffect .click strength st =
      (Status.ok, 0, true,
        [(Endpoint.activate, WVal.i 0), (Endpoint.ignoreStore, WVal.i 0),
         (Endpoint.vmax, WVal.i 9), (Endpoint.gain, WVal.i 128),
         (Endpoint.seq, WVal.s ("0 1")), (Endpoint.seq, WVal.s ("1 0")),
         (Endpoint.ctrlLoop, WVal.s ("0 0x0")),
         (Endpoint.gain, WVal.i (Vibrator.convertEffectStrength strength)),
         (Endpoint.ctrlLoop, WVal.i 1), (Endpoint.duration, WVal.i 0),
         (Endpoint.mode, WVal.s ("waveform")), (Endpoint.lraWaveShape, WVal.i 1),
         (Endpoint.brightness, WVal.i 1)]) ∧
    Vibrator.performEffect .doubleClick strength st =
      (Status.ok, 10, true,
        [(Endpoint.activate, WVal.i 0), (Endpoint.ignoreStore, WVal.i 0),
         (Endpoint.vmax, WVal.i 9), (Endpoint.gain, WVal.i 128),
         (Endpoint.seq, WVal.s ("0 1")),
         (Endpoint.ctrlLoop, WVal.s ("0 0x0")), (Endpoint.ctrlLoop, WVal.s ("1 0x0")),
         (Endpoint.gain, WVal.i (Vibrator.convertEffectStrength strength)),
         (Endpoint.ctrlLoop, WVal.i 1), (Endpoint.duration, WVal.i 10),
         (Endpoint.mode, WVal.s ("waveform")), (Endpoint.lraWaveShape, WVal.i 1),
         (Endpoint.brightness, WVal.i 1)]) ∧
    Vibrator.performEffect .tick strength st =
      (Status.ok, 0, true,
        [(Endpoint.activate, WVal.i 0), (Endpoint.ignoreStore, WVal.i 0),
         (Endpoint.vmax, WVal.i 9), (Endpoint.gain, WVal.i 128),
         (Endpoint.seq, WVal.s ("0 1")), (Endpoint.seq, WVal.s ("1 0")),
         (Endpoint.ctrlLoop, WVal.s ("1 0x0")),
         (Endpoint.gain, WVal.i (Vibrator.convertEffectStrength strength)),
         (Endpoint.ctrlLoop, WVal.i 1), (Endpoint.duration, WVal.i 0),
         (Endpoint.mode, WVal.s ("waveform")), (Endpoint.lraWaveShape, WVal.i 1),
         (Endpoint.brightness, WVal.i 1)]) ∧
    Vibrator.performEffect .heavyClick strength st =
      (Status.ok, 10, true,
        [(Endpoint.activate, WVal.i 0), (Endpoint.ignoreStore, WVal.i 0),
         (Endpoint.vmax, WVal.i 9), (Endpoint.gain, WVal.i 128),
         (Endpoint.seq, WVal.s ("0 0")), (Endpoint.seq, WVal.s ("1 0")),
         (Endpoint.ctrlLoop, WVal.s ("1 0x1")),
         (Endpoint.gain, WVal.i (Vibrator.convertEffectStrength strength)),
         (Endpoint.ctrlLoop, WVal.i 1), (Endpoint.duration, WVal.i 10),
         (Endpoint.mode, WVal.s ("waveform")), (Endpoint.lraWaveShape, WVal.i 1),
         (Endpoint.brightness, WVal.i 1)]) ∧
    Vibrator.performEffect .pop strength st =
      (Status.ok, 5, true,
        [(Endpoint.activate, WVal.i 0), (Endpoint.ignoreStore, WVal.i 0),
         (Endpoint.duration, WVal.i 0),
         (Endpoint.vmax, WVal.i 9), (Endpoint.gain, WVal.i 128),
         (Endpoint.gain, WVal.i (Vibrator.convertEffectStrength strength)),
         (Endpoint.ctrlLoop, WVal.i 1), (Endpoint.duration, WVal.i 5),
         (Endpoint.mode, WVal.s ("waveform")), (Endpoint.lraWaveShape, WVal.i 1),
         (Endpoint.brightness, WVal.i 1)]) ∧
    Vibrator.performEffect .thud strength st =
      (Status.ok, 10, true,
        [(Endpoint.activate, WVal.i 0), (Endpoint.ignoreStore, WVal.i 0),
         (Endpoint.duration, WVal.i 0),
         (Endpoint.vmax, WVal.i 9), (Endpoint.gain, WVal.i 128),
         (Endpoint.gain, WVal.i (Vibrator.convertEffectStrength strength)),
         (Endpoint.ctrlLoop, WVal.i 1), (Endpoint.duration, WVal.i 10),
         (Endpoint.mode, WVal.s ("waveform")), (Endpoint.lraWaveShape, WVal.i 1),
         (Endpoint.brightness, WVal.i 1)]) ∧
    Vibrator.convertEffectStrength .light = 54 ∧
    Vibrator.convertEffectStrength .medium = 107 ∧
    Vibrator.convertEffectStrength .strong = 107 ∧
    ∀ n : Int, Vibrator.convertEffectStrength (.other n) = 0 :=
  ⟨rfl, rfl, rfl, rfl, rfl, rfl, rfl, rfl, rfl, fun _ => rfl⟩

/-- Claim C6: `setAmplitude` rejects exactly amplitude `0` with the
invalid-argument status and no hardware write; every amplitude in
`1..255` succeeds and writes the rounding of `(amplitude-1)/254 * 127`
to the realtime-playback-input endpoint; in particular `255` writes
`127` and `1` writes `0`. -/
theorem setAmplitude_spec (amplitude : Nat) (hle : amplitude ≤ 255) :
    ((Vibrator.setAmplitude amplitude).1 = Status.badValue ↔ amplitude = 0) ∧
    (amplitude = 0 → (Vibrator.setAmplitude amplitude).2 = []) ∧
    (1 ≤ amplitude → Vibrator.setAmplitude amplitude =
      (Status.ok,
        [(Endpoint.rtpInput,
          WVal.i (Vibrator.roundHalfAway (((amplitude : Int) - 1) * 127) 254))])) ∧
    (Vibrator.setAmplitude 255).2 = [(Endpoint.rtpInput, WVal.i 127)] ∧
    (Vibrator.setAmplitude 1).2 = [(Endpoint.rtpInput, WVal.i 0)] := by
  refine ⟨?_, ?_, ?_, by decide, by decide⟩
  · by_cases h : amplitude = 0
    · simp [Vibrator.setAmplitude, h]
    · simp [Vibrator.setAmplitude, h]
  · intro h
    simp [Vibrator.setAmplitude, h]
  · intro h
    have h0 : ¬ amplitude = 0 := by omega
    simp only [Vibrator.setAmplitude, if_neg h0, MAX_RTP_INPUT, MIN_RTP_INPUT]
    norm_num

/-- Witness for claim C6 at the concrete amplitude `255`. -/
theorem setAmplitude_spec_witness :
    ((Vibrator.setAmplitude 255).1 = Status.badValue ↔ (255 : Nat) = 0) ∧
      (Vibrator.setAmplitude 255).2 = [(Endpoint.rtpInput, WVal.i 127)] :=
  ⟨(setAmplitude_spec 255 (by decide)).1, (setAmplitude_spec 255 (by decide)).2.2.2.1⟩
